import Mathlib

/-!
Shallow embedding of `src/sr.c`, the Selective-Repeat / Go-Back-N ARQ
engine (sender entity A, receiver entity B), together with proofs about
the claims of its specification.

Modelling conventions:
* C `int` is modelled as `Int` (no value in the verified scenarios comes
  near 2^31, so wraparound is irrelevant).
* C `float`/`double` arithmetic is modelled over `ℚ`.  Every concrete
  trace evaluated below uses only dyadic rationals with tiny numerators,
  on which IEEE single/double arithmetic is exact, so the `ℚ` model and
  the C code agree on those traces.
* C truncating division/modulus (`/`, `%`) are `Int.tdiv` / `Int.tmod`.
* A C float-to-int assignment truncates toward zero: `cTrunc`.
* C fixed-size arrays are Lean lists of the corresponding length; the
  length is part of the state invariant.  Reading or writing a negative
  index is undefined behaviour in C; the helpers `getI`/`setI` make it a
  fixed harmless result so that the model stays total (no verified
  scenario reaches such an access).
* The emulator services `tolayer3`, `tolayer5`, `starttimer`,
  `stoptimer`, `get_sim_time` are external collaborators (spec §1):
  transmitted packets and delivered payloads are returned as explicit
  output lists, the single timer is a `Bool` in the sender state, and
  the current simulation time is an explicit `ℚ` argument of each
  handler.
-/

/-! ### Constants from `sr.c` -/
def WINDOWSIZE : Int := 6

def SEQSPACE : Int := 7

def NOTINUSE : Int := -1

def MAX_RETRANSMISSIONS : Int := 5

def FAST_RETRANSMIT_THRESHOLD : Int := 3

def RTT_ALPHA : ℚ := 1/8

def RTT_BETA : ℚ := 1/4

def RTT_MIN : ℚ := 8

def RTT_MAX : ℚ := 64

/-- Modelled from the spec: the emulator's base round-trip-time constant
`BASE_RTT` used by `A_init` lives in the emulator header, which is not part
of `src/`; the spec fixes the round trip time of the channel at 16.0
("RTT 16.0 ... MUST BE SET TO 16.0"). -/
def BASE_RTT : ℚ := 16

/-! ### C arithmetic helpers -/
/-- C truncating (toward zero) integer division. -/
def cdiv (a b : Int) : Int := Int.tdiv a b

/-- C `%` on `int`: remainder of truncating division (sign of the dividend). -/
def cmod (a b : Int) : Int := Int.tmod a b

/-- C assignment of a floating-point value to an `int`: truncation toward
zero.  For a reduced rational this is truncating division of numerator by
denominator. -/
def cTrunc (q : ℚ) : Int := Int.tdiv q.num q.den

/-! ### Packets -/
/-- The emulator's `struct pkt`: 20 payload bytes, a sequence number, an
acknowledgement number, a checksum, and (for the RTT-adaptive variant) a
timestamp.  Payload bytes are modelled as `Int` (the C code sums
`(int)payload[i]`). -/
structure Pkt where
  seqnum : Int
  acknum : Int
  checksum : Int
  payload : List Int
  timestamp : ℚ
deriving DecidableEq

/-- The all-zero packet: the content of C static storage before first use. -/
def zeroPkt : Pkt :=
  { seqnum := 0, acknum := 0, checksum := 0
    payload := List.replicate 20 0, timestamp := 0 }

instance : Inhabited Pkt := ⟨zeroPkt⟩

/-! ### Array helpers -/
/-- Read `l[i]` for a C array modelled as a list.  A negative or
out-of-bounds index is undefined behaviour in C; the model returns `0`
(no verified scenario performs such an access). -/
def getI (l : List Int) (i : Int) : Int :=
  if 0 ≤ i then l.getD i.toNat 0 else 0

/-- Write `l[i] = v`.  A negative index is undefined behaviour in C; the
model leaves the array unchanged (no verified scenario performs such an
access). -/
def setI (l : List Int) (i : Int) (v : Int) : List Int :=
  if 0 ≤ i then l.set i.toNat v else l

/-- Read a packet slot of a C `struct pkt` array. -/
def getPkt (l : List Pkt) (i : Int) : Pkt :=
  if 0 ≤ i then l.getD i.toNat zeroPkt else zeroPkt

/-- Write a packet slot of a C `struct pkt` array. -/
def setPkt (l : List Pkt) (i : Int) (v : Pkt) : List Pkt :=
  if 0 ≤ i then l.set i.toNat v else l

/-! ### Checksum (`ComputeChecksum`, `IsCorrupted`) -/
/-- Function `ComputeChecksum` of `sr.c`: start from `seqnum`, add `acknum`, then
loop `for (i=0; i<20; i++) checksum += payload[i]`. -/
def ComputeChecksum (p : Pkt) : Int :=
  (List.range 20).foldl (fun c i => c + p.payload.getD i 0) (p.seqnum + p.acknum)

/-- Function `IsCorrupted` of `sr.c`. -/
def IsCorrupted (p : Pkt) : Bool :=
  if p.checksum = ComputeChecksum p then false else true

/-! ### Sender (entity A) state

All the `static` sender-side variables of `sr.c`, plus the observability
counters (`window_full`, `total_ACKs_received`, `new_ACKs`,
`packets_resent` of the emulator) and the single retransmission timer
(`timer_running`), which the emulator owns. -/
structure AState where
  buffer : List Pkt                 -- struct pkt buffer[WINDOWSIZE]
  windowfirst : Int
  windowlast : Int
  windowcount : Int
  A_nextseqnum : Int
  estimated_rtt : ℚ                 -- float
  dev_rtt : ℚ                       -- float
  retransmission_count : List Int   -- int [WINDOWSIZE]
  dup_ack_count : List Int          -- int [SEQSPACE]
  last_ack : Int
  timeout_interval : Int            -- declared int in sr.c
  network_condition : Int
  consecutive_timeouts : Int
  window_full : Int                 -- emulator counter
  total_ACKs_received : Int         -- emulator counter
  new_ACKs : Int                    -- emulator counter
  packets_resent : Int              -- emulator counter
  timer_running : Bool              -- the emulator's single timer for A
deriving DecidableEq

/-- Function `A_init` of `sr.c`: the sender state after initialisation.  The window
buffer itself is only zeroed by C static initialisation (the all-zero
packet), `A_init` does not touch it. -/
def A_init : AState :=
  { buffer := List.replicate 6 zeroPkt
    windowfirst := 0
    windowlast := -1
    windowcount := 0
    A_nextseqnum := 0
    estimated_rtt := BASE_RTT
    dev_rtt := BASE_RTT / 2
    retransmission_count := List.replicate 6 0
    dup_ack_count := List.replicate 7 0
    last_ack := -1
    timeout_interval := cTrunc (BASE_RTT * 2)
    network_condition := 0
    consecutive_timeouts := 0
    window_full := 0
    total_ACKs_received := 0
    new_ACKs := 0
    packets_resent := 0
    timer_running := false }

/-- Function `A_output` of `sr.c`.  `data` is the 20-byte application message;
`garbage` models the indeterminate value of the uninitialised local
`sendpkt.timestamp` (the C code never assigns it before the packet is
buffered and transmitted; no claim depends on it, since the checksum does
not cover the timestamp).  Returns the new state and the packets handed
to `tolayer3`. -/
def A_output (s : AState) (data : List Int) (garbage : ℚ) : AState × List Pkt :=
  if s.windowcount < WINDOWSIZE then
    let sendpkt : Pkt :=
      { seqnum := s.A_nextseqnum, acknum := NOTINUSE, checksum := 0
        payload := data, timestamp := garbage }
    let sendpkt := { sendpkt with checksum := ComputeChecksum sendpkt }
    let wl := cmod (s.windowlast + 1) WINDOWSIZE
    -- the C body updates the globals one after the other; the timer is
    -- started when the incremented windowcount has just become 1
    ({ s with
        windowlast := wl
        buffer := setPkt s.buffer wl sendpkt
        windowcount := s.windowcount + 1
        retransmission_count := setI s.retransmission_count wl 0
        timer_running :=
          if s.windowcount + 1 = 1 then true else s.timer_running
        A_nextseqnum := cmod (s.A_nextseqnum + 1) SEQSPACE }, [sendpkt])
  else
    ({ s with window_full := s.window_full + 1 }, [])

/-- The circular in-window test of `A_input` on an acknowledgement
number, exactly as written in the C source (two cases, for an unwrapped
and a wrapped window). -/
def ackInWindow (seqfirst seqlast acknum : Int) : Bool :=
  (seqfirst ≤ seqlast && (acknum ≥ seqfirst && acknum ≤ seqlast)) ||
  (seqfirst > seqlast && (acknum ≥ seqfirst || acknum ≤ seqlast))

/-- The linear search of the fast-retransmit path: first window offset
`i < windowcount` whose buffered packet carries sequence number
`(acknum + 1) % SEQSPACE`; returns the buffer index `(windowfirst+i) % WINDOWSIZE`.
The loop reads only `windowcount`, `windowfirst` and `buffer`, which it
receives as parameters. -/
def findResendIdx (windowcount windowfirst : Int) (buffer : List Pkt)
    (acknum : Int) : Option Int :=
  (List.range windowcount.toNat).findSome? fun (i : Nat) =>
    if (getPkt buffer (cmod (windowfirst + (i : Int)) WINDOWSIZE)).seqnum
        = cmod (acknum + 1) SEQSPACE then
      some (cmod (windowfirst + (i : Int)) WINDOWSIZE)
    else none

/-- Function `A_input` of `sr.c`: processing of an arriving (acknowledgement)
packet.  `now` is the value `get_sim_time()` would return during this
call.  Returns the new state and the packets handed to `tolayer3`
(nonempty only on a fast retransmit). -/
def A_input (s : AState) (packet : Pkt) (now : ℚ) : AState × List Pkt :=
  if IsCorrupted packet then (s, [])
  else if s.windowcount ≠ (0 : Int) then
    let seqfirst := (getPkt s.buffer s.windowfirst).seqnum
    let seqlast := (getPkt s.buffer s.windowlast).seqnum
    if ackInWindow seqfirst seqlast packet.acknum then
      if packet.acknum ≠ s.last_ack then
        -- new ACK: cumulative acknowledgement, window slides by ackcount;
        -- the RTT estimate is updated only when the windowfirst slot was
        -- never retransmitted (all reads below happen before any write
        -- of the same variable in the C body)
        let ackcount : Int :=
          if packet.acknum ≥ seqfirst then packet.acknum + 1 - seqfirst
          else SEQSPACE - seqfirst + packet.acknum + 1
        if getI s.retransmission_count s.windowfirst = 0 then
          let sample_rtt := now - packet.timestamp
          let est := (1 - RTT_ALPHA) * s.estimated_rtt + RTT_ALPHA * sample_rtt
          let dev := (1 - RTT_BETA) * s.dev_rtt + RTT_BETA * |sample_rtt - est|
          let ti := cTrunc (est + 4 * dev)
          let ti := if (ti : ℚ) < RTT_MIN then (8 : Int) else ti
          let ti := if (ti : ℚ) > RTT_MAX then (64 : Int) else ti
          ({ s with
              total_ACKs_received := s.total_ACKs_received + 1
              new_ACKs := s.new_ACKs + 1
              estimated_rtt := est
              dev_rtt := dev
              timeout_interval := ti
              dup_ack_count := setI s.dup_ack_count packet.acknum 0
              consecutive_timeouts := 0
              windowfirst := cmod (s.windowfirst + ackcount) WINDOWSIZE
              windowcount := s.windowcount - ackcount
              timer_running := decide (s.windowcount - ackcount > 0)
              last_ack := packet.acknum }, [])
        else
          ({ s with
              total_ACKs_received := s.total_ACKs_received + 1
              new_ACKs := s.new_ACKs + 1
              dup_ack_count := setI s.dup_ack_count packet.acknum 0
              consecutive_timeouts := 0
              windowfirst := cmod (s.windowfirst + ackcount) WINDOWSIZE
              windowcount := s.windowcount - ackcount
              timer_running := decide (s.windowcount - ackcount > 0)
              last_ack := packet.acknum }, [])
      else
        -- duplicate ACK: bump the counter first, then test the threshold
        -- against the bumped value
        let dup := setI s.dup_ack_count packet.acknum
          (getI s.dup_ack_count packet.acknum + 1)
        if getI dup packet.acknum ≥ FAST_RETRANSMIT_THRESHOLD then
          match findResendIdx s.windowcount s.windowfirst s.buffer
              packet.acknum with
          | some idx =>
              ({ s with
                  total_ACKs_received := s.total_ACKs_received + 1
                  packets_resent := s.packets_resent + 1
                  retransmission_count := setI s.retransmission_count idx
                    (getI s.retransmission_count idx + 1)
                  dup_ack_count := setI dup packet.acknum 0 },
               [getPkt s.buffer idx])
          | none =>
              ({ s with
                  total_ACKs_received := s.total_ACKs_received + 1
                  dup_ack_count := dup }, [])
        else
          ({ s with
              total_ACKs_received := s.total_ACKs_received + 1
              dup_ack_count := dup }, [])
    else ({ s with total_ACKs_received := s.total_ACKs_received + 1 }, [])
  else ({ s with total_ACKs_received := s.total_ACKs_received + 1 }, [])

/-- One iteration of the retransmission loop of `A_timerinterrupt`:
window offset `i`, buffer index `(windowfirst + i) % WINDOWSIZE`.  If the
slot is below the retry bound, refresh its timestamp, transmit it and
bump its count; otherwise report the packet as abandoned.  The
accumulator carries (state, packets handed to `tolayer3`, sequence
numbers reported as given up). -/
def timerLoopStep (now : ℚ) (acc : AState × List Pkt × List Int) (i : Nat) :
    AState × List Pkt × List Int :=
  let st := acc.1
  let idx := cmod (st.windowfirst + i) WINDOWSIZE
  if getI st.retransmission_count idx < MAX_RETRANSMISSIONS then
    let refreshed := { getPkt st.buffer idx with timestamp := now }
    ({ st with
        buffer := setPkt st.buffer idx refreshed
        packets_resent := st.packets_resent + 1
        retransmission_count := setI st.retransmission_count idx
          (getI st.retransmission_count idx + 1) },
     acc.2.1 ++ [refreshed], acc.2.2)
  else
    (st, acc.2.1, acc.2.2 ++ [(getPkt st.buffer idx).seqnum])

/-- The state update `A_timerinterrupt` performs before its
retransmission loop: the consecutive-timeout counter is incremented, the
timeout interval receives the exponential backoff (factor `1 << n`,
capped at 8; `fmin` caps the product at `RTT_MAX`; the C `int`
assignment truncates) when this is at least the second consecutive
timeout, and the network-condition flag is raised at the third.  Every
condition reads the already-incremented counter. -/
def timeoutBackoff (s : AState) : AState :=
  { s with
    consecutive_timeouts := s.consecutive_timeouts + 1
    timeout_interval :=
      if s.consecutive_timeouts + 1 > 1 then
        cTrunc (min ((s.timeout_interval : ℚ) *
          (if s.consecutive_timeouts + 1 > 3 then (8 : ℚ)
           else ((2 ^ (s.consecutive_timeouts + 1).toNat : Int) : ℚ))) RTT_MAX)
      else s.timeout_interval
    network_condition :=
      if s.consecutive_timeouts + 1 ≥ (3 : Int) then 1
      else s.network_condition }

/-- Function `A_timerinterrupt` of `sr.c`.  Returns the new state, the packets
handed to `tolayer3`, and the sequence numbers reported as abandoned
("reached max retransmissions ... giving up"). -/
def A_timerinterrupt (s : AState) (now : ℚ) : AState × List Pkt × List Int :=
  let s := timeoutBackoff s
  let r := (List.range s.windowcount.toNat).foldl (timerLoopStep now) (s, [], [])
  ({ r.1 with timer_running := decide (r.1.windowcount > 0) }, r.2.1, r.2.2)

/-! ### Sender event sequences -/
/-- An externally triggered sender event: an application submit (with the
indeterminate stack value for the unset timestamp), an arriving packet,
or a timer expiry. -/
inductive AOp where
  | submit (data : List Int) (garbage : ℚ)
  | recv (p : Pkt) (now : ℚ)
  | timeout (now : ℚ)

/-- One sender event-handler invocation; returns the new state and the
packets handed to `tolayer3` during it. -/
def stepA (s : AState) (op : AOp) : AState × List Pkt :=
  match op with
  | .submit d g => A_output s d g
  | .recv p now => A_input s p now
  | .timeout now => let r := A_timerinterrupt s now; (r.1, r.2.1)

/-- Run a sequence of sender events, accumulating every packet handed to
`tolayer3`. -/
def runTraceA : AState → List AOp → AState × List Pkt
  | s, [] => (s, [])
  | s, op :: ops =>
      let r := stepA s op
      let rest := runTraceA r.1 ops
      (rest.1, r.2 ++ rest.2)

/-- The sender state after a sequence of events. -/
def runA (s : AState) (ops : List AOp) : AState := (runTraceA s ops).1

/-- A packet handed to `A_input` is well formed when it is either
corrupted (then `A_input` discards it before reading any field) or its
acknowledgement number is one the receiver actually produces: the
receiver only ever sends `acknum = (expectedseqnum + SEQSPACE - 1) % SEQSPACE
∈ [0, SEQSPACE)` or, before any delivery, the initial `-1`.  (The
emulator's corruption patterns are always caught by the checksum.) -/
def wfAOp : AOp → Bool
  | .recv p _ => IsCorrupted p || ((-1 ≤ p.acknum) && (p.acknum < SEQSPACE))
  | _ => true

/-- Sender states reachable from `A_init` by well-formed event sequences. -/
def reachableA (s : AState) : Prop :=
  ∃ ops : List AOp, ops.all wfAOp = true ∧ runA A_init ops = s

/-! ### Receiver (entity B) state -/
/-- All the `static` receiver-side variables of `sr.c`, plus the
`packets_received` emulator counter. -/
structure BState where
  expectedseqnum : Int
  B_nextseqnum : Int
  last_acked_pkt : Pkt
  out_of_order_pkts : List Int  -- int [SEQSPACE]: presence flags only
  reordering_detected : Int
  packets_received : Int        -- emulator counter

/-- Function `B_init` of `sr.c`: builds (and checksums) the initial "last ACK"
packet with `seqnum = acknum = -1` and an all-`'0'` payload.  Its
timestamp field is only zeroed by C static initialisation. -/
def B_init : BState :=
  let base : Pkt :=
    { seqnum := -1, acknum := -1, checksum := 0
      payload := List.replicate 20 48, timestamp := 0 }
  { expectedseqnum := 0
    B_nextseqnum := 1
    last_acked_pkt := { base with checksum := ComputeChecksum base }
    out_of_order_pkts := List.replicate 7 0
    reordering_detected := 0
    packets_received := 0 }

/-- The receive-window membership loop of `B_input`:
`for (i = 0; i < WINDOWSIZE; i++) if (seqnum == (expectedseqnum+i) % SEQSPACE)`. -/
def seqInRcvWindow (expectedseqnum seqnum : Int) : Bool :=
  (List.range 6).any fun i => seqnum = cmod (expectedseqnum + i) SEQSPACE

/-- The buffer-drain loop of `B_input`:
`while (out_of_order_pkts[expectedseqnum] == 1) { clear; advance; }`.
Each iteration clears the flag at the current position and steps to the
next sequence number mod `SEQSPACE`, so after at most seven iterations
the loop revisits a cleared slot and exits: fuel `7` makes the
fuel-limited recursion exact for the length-7 flag array.  Note the C
code clears flags but delivers nothing here (the payloads were never
stored). -/
def drain : Nat → Int → List Int → Int × List Int
  | 0, e, fl => (e, fl)
  | fuel + 1, e, fl =>
      if getI fl e = 1 then drain fuel (cmod (e + 1) SEQSPACE) (setI fl e 0)
      else (e, fl)

/-- Build the outgoing ACK packet of `B_input` (the common tail of the
function): sequence number from `B_nextseqnum`, all-`'0'` payload,
checksum over the finished packet. -/
def mkAck (acknum : Int) (ts : ℚ) (bn : Int) : Pkt :=
  let base : Pkt :=
    { seqnum := bn, acknum := acknum, checksum := 0
      payload := List.replicate 20 48, timestamp := ts }
  { base with checksum := ComputeChecksum base }

/-- Function `B_input` of `sr.c`.  `now` is the value `get_sim_time()` would
return during this call.  Returns the new state, the payloads handed to
`tolayer5`, and the packets handed to `tolayer3` (always exactly one:
the function unconditionally transmits an acknowledgement, even for a
corrupted arrival). -/
def B_input (s : BState) (packet : Pkt) (now : ℚ) :
    BState × List (List Int) × List Pkt :=
  let in_window := seqInRcvWindow s.expectedseqnum packet.seqnum
  -- (state after the branch, payloads delivered, acknum and timestamp of
  -- the outgoing packet before the common tail)
  let branch : BState × List (List Int) × Int × ℚ :=
    if IsCorrupted packet then
      -- corrupted: resend the saved last ACK (its acknum and timestamp)
      (s, [], s.last_acked_pkt.acknum, s.last_acked_pkt.timestamp)
    else if packet.seqnum = s.expectedseqnum then
      -- the expected packet: deliver it, then drain the flag buffer
      let s := { s with packets_received := s.packets_received + 1 }
      let d := drain 7 (cmod (s.expectedseqnum + 1) SEQSPACE) s.out_of_order_pkts
      ({ s with expectedseqnum := d.1, out_of_order_pkts := d.2 },
       [packet.payload], cmod (d.1 + SEQSPACE - 1) SEQSPACE, now)
    else if in_window then
      -- out of order but in window: flag it, ACK the last in-order seqnum
      ({ s with reordering_detected := 1
                out_of_order_pkts := setI s.out_of_order_pkts packet.seqnum 1 },
       [], cmod (s.expectedseqnum + SEQSPACE - 1) SEQSPACE, now)
    else
      -- duplicate / out of window: ACK the last in-order seqnum
      (s, [], cmod (s.expectedseqnum + SEQSPACE - 1) SEQSPACE, now)
  let s := branch.1
  let sendpkt := mkAck branch.2.2.1 branch.2.2.2 s.B_nextseqnum
  ({ s with B_nextseqnum := cmod (s.B_nextseqnum + 1) 2
            last_acked_pkt := sendpkt },
   branch.2.1, [sendpkt])

/-- Run a sequence of receiver events (arriving packet and the clock
value at arrival), accumulating the payloads handed to `tolayer5` and
the packets handed to `tolayer3`. -/
def runB : BState → List (Pkt × ℚ) → BState × List (List Int) × List Pkt
  | s, [] => (s, [], [])
  | s, (p, now) :: rest =>
      let r := B_input s p now
      let tail := runB r.1 rest
      (tail.1, r.2.1 ++ tail.2.1, r.2.2 ++ tail.2.2)

/-- An uncorrupted data packet as entity A builds one: given sequence
number and payload, `acknum = NOTINUSE` and a correct checksum (used for
the concrete receiver-side scenarios). -/
def dataPkt (seq : Int) (payload : List Int) : Pkt :=
  let base : Pkt :=
    { seqnum := seq, acknum := NOTINUSE, checksum := 0
      payload := payload, timestamp := 0 }
  { base with checksum := ComputeChecksum base }

/-! ### The sender state invariant -/
/-- Structural invariant of the sender state: array lengths, index and
sequence-number bounds, checksum validity of every buffered packet, and
the timer discipline (the retransmission timer is running exactly when
the window is nonempty). -/
structure AInv (s : AState) : Prop where
  hbuf : s.buffer.length = 6
  hrc : s.retransmission_count.length = 6
  hdup : s.dup_ack_count.length = 7
  hwf0 : 0 ≤ s.windowfirst
  hwf6 : s.windowfirst < 6
  hwl0 : -1 ≤ s.windowlast
  hwl6 : s.windowlast < 6
  hwc6 : s.windowcount ≤ 6
  hns0 : 0 ≤ s.A_nextseqnum
  hns7 : s.A_nextseqnum < 7
  hseq : ∀ p ∈ s.buffer, 0 ≤ p.seqnum ∧ p.seqnum < 7
  hck : ∀ p ∈ s.buffer, p.checksum = ComputeChecksum p
  htimer : s.timer_running = true ↔ 0 < s.windowcount

/-- A 20-byte application message with recognisable content. -/
def msgData (i : Int) : List Int := List.replicate 20 (65 + i)

/-- Seven submissions in a row: the seventh finds the window full. -/
def opsC6 : List AOp :=
  [.submit (msgData 0) 0, .submit (msgData 1) 0, .submit (msgData 2) 0,
   .submit (msgData 3) 0, .submit (msgData 4) 0, .submit (msgData 5) 0,
   .submit (msgData 6) 0]

/-- An acknowledgement packet as entity B would build it (all-`'0'`
payload, valid checksum), with a chosen acknowledgement number. -/
def ackPkt (a : Int) : Pkt :=
  let base : Pkt :=
    { seqnum := 0, acknum := a, checksum := 0
      payload := List.replicate 20 48, timestamp := 0 }
  { base with checksum := ComputeChecksum base }

def opsC10 : List AOp :=
  [.submit (msgData 0) 0, .submit (msgData 1) 0, .timeout 20, .recv (ackPkt 0) 25]

/-- A packet whose stored checksum cannot match its contents. -/
def corruptPkt : Pkt :=
  { seqnum := 0, acknum := 0, checksum := 999
    payload := List.replicate 20 0, timestamp := 0 }

/-! ### C1: delivery of buffered out-of-order payloads -/
/-- Arrivals for the C1 scenario: packet 1 first (buffered out of
order), then packet 0 (expected), then packet 1 again. -/
def opsC1 : List (Pkt × ℚ) :=
  [(dataPkt 1 (msgData 1), 0), (dataPkt 0 (msgData 0), 0),
   (dataPkt 1 (msgData 1), 0)]

/-! ### C3: ACK 2 with packets 0..5 outstanding -/
/-- The C3 scenario: fill the window with packets 0..5, then deliver an
uncorrupted ACK for sequence number 2, followed by three more ACKs
for 2. -/
def opsC3 : List AOp :=
  [.submit (msgData 0) 0, .submit (msgData 1) 0, .submit (msgData 2) 0,
   .submit (msgData 3) 0, .submit (msgData 4) 0, .submit (msgData 5) 0,
   .recv (ackPkt 2) 0, .recv (ackPkt 2) 0, .recv (ackPkt 2) 0,
   .recv (ackPkt 2) 0]

/-- Sender state with one outstanding packet (sequence 0, never
retransmitted), as left by a single submit after initialisation. -/
def sC7 : AState := (A_output A_init (msgData 0) 0).1

/-- An uncorrupted acknowledgement for sequence 0 carrying timestamp
`-10`, so that the sample taken at `now = 0` is `10` (all values dyadic,
hence exact in C float arithmetic). -/
def ackTsPkt : Pkt :=
  let base : Pkt :=
    { seqnum := 0, acknum := 0, checksum := 0
      payload := List.replicate 20 48, timestamp := -10 }
  { base with checksum := ComputeChecksum base }

/-- A sender state with three outstanding packets in slots 4, 5, 0 (the
window wraps), where slots 4 and 0 have reached the retry bound and slot
5 has not. -/
def sC5 : AState :=
  { A_init with
      buffer := [dataPkt 0 (msgData 0), dataPkt 1 (msgData 1),
        dataPkt 2 (msgData 2), dataPkt 3 (msgData 3),
        dataPkt 4 (msgData 4), dataPkt 5 (msgData 5)]
      windowfirst := 4
      windowlast := 0
      windowcount := 3
      retransmission_count := [5, 0, 0, 0, 5, 1]
      timer_running := true }

/-- For the nonnegative operands that occur in every reachable state,
C `%` agrees with mathematical `Int.emod`. -/
theorem cmod_eq_emod (a b : Int) (ha : 0 ≤ a) (hb : 0 ≤ b) :
    cmod a b = a % b :=
  Int.tmod_eq_emod ha hb

/-! ### Elementary facts about the C helpers -/
theorem cmod_nonneg (a b : Int) (ha : 0 ≤ a) (hb : 0 < b) : 0 ≤ cmod a b := by
  rw [cmod_eq_emod a b ha hb.le]
  exact Int.emod_nonneg a (by omega)

theorem cmod_lt (a b : Int) (ha : 0 ≤ a) (hb : 0 < b) : cmod a b < b := by
  rw [cmod_eq_emod a b ha hb.le]
  exact Int.emod_lt_of_pos a hb

theorem length_setI (l : List Int) (i : Int) (v : Int) :
    (setI l i v).length = l.length := by
  unfold setI
  split <;> simp

theorem length_setPkt (l : List Pkt) (i : Int) (v : Pkt) :
    (setPkt l i v).length = l.length := by
  unfold setPkt
  split <;> simp

theorem getI_setI_self (l : List Int) (i : Int) (v : Int)
    (h0 : 0 ≤ i) (hl : i.toNat < l.length) : getI (setI l i v) i = v := by
  unfold getI setI
  rw [if_pos h0, if_pos h0, List.getD_eq_getElem?_getD, List.getElem?_set]
  simp [hl]

theorem getI_setI_ne (l : List Int) (i j : Int) (v : Int) (hij : i ≠ j) :
    getI (setI l i v) j = getI l j := by
  unfold getI setI
  by_cases hi : 0 ≤ i
  · by_cases hj : 0 ≤ j
    · rw [if_pos hi, if_pos hj, if_pos hj, List.getD_eq_getElem?_getD,
        List.getD_eq_getElem?_getD, List.getElem?_set_ne (by omega)]
    · simp [hj]
  · simp [hi]

theorem getPkt_setPkt_self (l : List Pkt) (i : Int) (v : Pkt)
    (h0 : 0 ≤ i) (hl : i.toNat < l.length) : getPkt (setPkt l i v) i = v := by
  unfold getPkt setPkt
  rw [if_pos h0, if_pos h0, List.getD_eq_getElem?_getD, List.getElem?_set]
  simp [hl]

theorem getPkt_setPkt_ne (l : List Pkt) (i j : Int) (v : Pkt) (hij : i ≠ j) :
    getPkt (setPkt l i v) j = getPkt l j := by
  unfold getPkt setPkt
  by_cases hi : 0 ≤ i
  · by_cases hj : 0 ≤ j
    · rw [if_pos hi, if_pos hj, if_pos hj, List.getD_eq_getElem?_getD,
        List.getD_eq_getElem?_getD, List.getElem?_set_ne (by omega)]
    · simp [hj]
  · simp [hi]

theorem mem_setPkt {x : Pkt} (l : List Pkt) (i : Int) (v : Pkt)
    (hx : x ∈ setPkt l i v) : x ∈ l ∨ x = v := by
  unfold setPkt at hx
  by_cases hi : 0 ≤ i
  · rw [if_pos hi] at hx
    exact List.mem_or_eq_of_mem_set hx
  · rw [if_neg hi] at hx
    exact Or.inl hx

theorem getPkt_mem (l : List Pkt) (i : Int) (h0 : 0 ≤ i)
    (hl : i.toNat < l.length) : getPkt l i ∈ l := by
  unfold getPkt
  rw [if_pos h0, List.getD_eq_getElem?_getD, List.getElem?_eq_getElem hl]
  exact List.getElem_mem hl

theorem ComputeChecksum_set_timestamp (p : Pkt) (t : ℚ) :
    ComputeChecksum { p with timestamp := t } = ComputeChecksum p := rfl

theorem ComputeChecksum_set_checksum (p : Pkt) (c : Int) :
    ComputeChecksum { p with checksum := c } = ComputeChecksum p := rfl

theorem AInv_init : AInv A_init := by
  constructor <;> decide

/-- Handler `A_output` preserves the invariant, and every packet it transmits is
correctly checksummed. -/
theorem AInv_A_output (s : AState) (h : AInv s) (d : List Int) (g : ℚ) :
    AInv (A_output s d g).1 ∧
      ∀ q ∈ (A_output s d g).2, q.checksum = ComputeChecksum q := by
  by_cases hlt : s.windowcount < WINDOWSIZE
  · have hwl1 : (0:Int) ≤ s.windowlast + 1 := by have := h.hwl0; omega
    have hwl0' : 0 ≤ cmod (s.windowlast + 1) WINDOWSIZE :=
      cmod_nonneg _ _ hwl1 (by decide)
    have hwl6' : cmod (s.windowlast + 1) WINDOWSIZE < 6 := by
      have := cmod_lt (s.windowlast + 1) WINDOWSIZE hwl1 (by decide)
      simpa [WINDOWSIZE] using this
    have hns1 : (0:Int) ≤ s.A_nextseqnum + 1 := by have := h.hns0; omega
    have hwc : s.windowcount ≤ 6 := h.hwc6
    have hlt6 : s.windowcount < 6 := by simpa [WINDOWSIZE] using hlt
    simp only [A_output, if_pos hlt]
    refine ⟨⟨?_, ?_, ?_, ?_, ?_, ?_, ?_, ?_, ?_, ?_, ?_, ?_, ?_⟩, ?_⟩ <;>
      dsimp only
    · rw [length_setPkt]; exact h.hbuf
    · rw [length_setI]; exact h.hrc
    · exact h.hdup
    · exact h.hwf0
    · exact h.hwf6
    · omega
    · exact hwl6'
    · omega
    · exact cmod_nonneg _ _ hns1 (by decide)
    · have := cmod_lt (s.A_nextseqnum + 1) SEQSPACE hns1 (by decide)
      simpa [SEQSPACE] using this
    · intro p hp
      rcases mem_setPkt _ _ _ hp with hmem | rfl
      · exact h.hseq p hmem
      · exact ⟨h.hns0, h.hns7⟩
    · intro p hp
      rcases mem_setPkt _ _ _ hp with hmem | rfl
      · exact h.hck p hmem
      · exact (ComputeChecksum_set_checksum _ _).symm
    · by_cases h1 : s.windowcount + 1 = 1
      · rw [if_pos h1]
        simp only [true_iff]
        omega
      · rw [if_neg h1, h.htimer]
        omega
    · intro q hq
      simp only [List.mem_singleton] at hq
      subst hq
      exact (ComputeChecksum_set_checksum _ _).symm
  · simp only [A_output, if_neg hlt]
    exact ⟨⟨h.hbuf, h.hrc, h.hdup, h.hwf0, h.hwf6, h.hwl0, h.hwl6, h.hwc6,
      h.hns0, h.hns7, h.hseq, h.hck, h.htimer⟩, by simp⟩

theorem findResendIdx_bounds (wc wf : Int) (b : List Pkt) (a idx : Int)
    (h0 : 0 ≤ wf)
    (hf : findResendIdx wc wf b a = some idx) : 0 ≤ idx ∧ idx < 6 := by
  unfold findResendIdx at hf
  obtain ⟨i, _, hfi⟩ := List.exists_of_findSome?_eq_some hf
  split at hfi
  · cases hfi
    have hnn : (0:Int) ≤ wf + (i : Int) := by
      have := Int.natCast_nonneg i
      omega
    refine ⟨cmod_nonneg _ _ hnn (by decide), ?_⟩
    have := cmod_lt (wf + (i : Int)) WINDOWSIZE hnn (by decide)
    simpa [WINDOWSIZE] using this
  · cases hfi

/-- Handler `A_input` preserves the invariant (for packets the receiver can
actually produce), and every packet it transmits is correctly
checksummed. -/
theorem AInv_A_input (s : AState) (h : AInv s) (p : Pkt) (now : ℚ)
    (hp : wfAOp (.recv p now) = true) :
    AInv (A_input s p now).1 ∧
      ∀ q ∈ (A_input s p now).2, q.checksum = ComputeChecksum q := by
  by_cases hc : IsCorrupted p
  · simp only [A_input, if_pos hc]
    exact ⟨h, by simp⟩
  · have hack : -1 ≤ p.acknum ∧ p.acknum < 7 := by
      simp only [wfAOp, hc, Bool.false_or, Bool.and_eq_true, decide_eq_true_eq,
        SEQSPACE] at hp
      exact hp
    have hwfNat : s.windowfirst.toNat < s.buffer.length := by
      rw [h.hbuf]
      have := h.hwf0
      have := h.hwf6
      omega
    have hsf := h.hseq _ (getPkt_mem s.buffer s.windowfirst h.hwf0 hwfNat)
    by_cases hwc0 : s.windowcount ≠ (0 : Int)
    · by_cases hwin : ackInWindow (getPkt s.buffer s.windowfirst).seqnum
        (getPkt s.buffer s.windowlast).seqnum p.acknum
      · by_cases hnew : p.acknum ≠ s.last_ack
        · -- new ACK: the window slides by `ackcount ≥ 1`
          have hackcnt : 1 ≤ (if p.acknum ≥ (getPkt s.buffer s.windowfirst).seqnum
              then p.acknum + 1 - (getPkt s.buffer s.windowfirst).seqnum
              else SEQSPACE - (getPkt s.buffer s.windowfirst).seqnum + p.acknum + 1) := by
            split <;> (try simp only [SEQSPACE]) <;> omega
          have hnn : (0:Int) ≤ s.windowfirst +
              (if p.acknum ≥ (getPkt s.buffer s.windowfirst).seqnum
              then p.acknum + 1 - (getPkt s.buffer s.windowfirst).seqnum
              else SEQSPACE - (getPkt s.buffer s.windowfirst).seqnum + p.acknum + 1) := by
            have := h.hwf0
            omega
          have hm0 := cmod_nonneg _ WINDOWSIZE hnn (by decide)
          have hm6 : cmod (s.windowfirst +
              (if p.acknum ≥ (getPkt s.buffer s.windowfirst).seqnum
              then p.acknum + 1 - (getPkt s.buffer s.windowfirst).seqnum
              else SEQSPACE - (getPkt s.buffer s.windowfirst).seqnum + p.acknum + 1))
              WINDOWSIZE < 6 := by
            have := cmod_lt (s.windowfirst +
              (if p.acknum ≥ (getPkt s.buffer s.windowfirst).seqnum
              then p.acknum + 1 - (getPkt s.buffer s.windowfirst).seqnum
              else SEQSPACE - (getPkt s.buffer s.windowfirst).seqnum + p.acknum + 1))
              WINDOWSIZE hnn (by decide)
            simpa [WINDOWSIZE] using this
          have hwcle := h.hwc6
          by_cases hrt : getI s.retransmission_count s.windowfirst = (0 : Int) <;>
            [simp only [A_input, if_neg hc, if_pos hwc0, hwin, if_pos hnew,
              if_pos hrt, if_true, reduceIte];
             simp only [A_input, if_neg hc, if_pos hwc0, hwin, if_pos hnew,
              if_neg hrt, if_true, reduceIte]] <;>
            refine ⟨⟨?_, ?_, ?_, ?_, ?_, ?_, ?_, ?_, ?_, ?_, ?_, ?_, ?_⟩, by simp⟩ <;>
            dsimp only <;>
            first
            | exact h.hbuf
            | (rw [length_setI]; exact h.hdup)
            | exact h.hrc
            | exact h.hwl0
            | exact h.hwl6
            | exact h.hns0
            | exact h.hns7
            | exact h.hseq
            | exact h.hck
            | exact hm0
            | exact hm6
            | omega
            | simp [decide_eq_true_iff]
        · -- duplicate ACK: possibly a fast retransmit
          simp only [ne_eq, not_not] at hnew
          have hnotnew : ¬ p.acknum ≠ s.last_ack := by simp [hnew]
          by_cases hth : getI (setI s.dup_ack_count p.acknum
              (getI s.dup_ack_count p.acknum + 1)) p.acknum ≥ FAST_RETRANSMIT_THRESHOLD
          · rcases hf : findResendIdx s.windowcount s.windowfirst s.buffer
                p.acknum with _ | idx
            · simp only [A_input, if_neg hc, if_pos hwc0, hwin, if_neg hnotnew,
                if_pos hth, if_true, reduceIte, hf]
              exact ⟨⟨h.hbuf, h.hrc, by rw [length_setI]; exact h.hdup, h.hwf0,
                h.hwf6, h.hwl0, h.hwl6, h.hwc6, h.hns0, h.hns7, h.hseq, h.hck,
                h.htimer⟩, by simp⟩
            · have hidx := findResendIdx_bounds _ _ _ _ _ (by exact h.hwf0) hf
              have hidxNat : idx.toNat < s.buffer.length := by
                rw [h.hbuf]; omega
              simp only [A_input, if_neg hc, if_pos hwc0, hwin, if_neg hnotnew,
                if_pos hth, if_true, reduceIte, hf]
              refine ⟨⟨h.hbuf, by rw [length_setI]; exact h.hrc,
                by rw [length_setI, length_setI]; exact h.hdup, h.hwf0,
                h.hwf6, h.hwl0, h.hwl6, h.hwc6, h.hns0, h.hns7, h.hseq, h.hck,
                h.htimer⟩, ?_⟩
              intro q hq
              simp only [List.mem_singleton] at hq
              subst hq
              exact h.hck _ (getPkt_mem s.buffer idx hidx.1 hidxNat)
          · simp only [A_input, if_neg hc, if_pos hwc0, hwin, if_neg hnotnew,
              if_neg hth, if_true, reduceIte]
            exact ⟨⟨h.hbuf, h.hrc, by rw [length_setI]; exact h.hdup, h.hwf0,
              h.hwf6, h.hwl0, h.hwl6, h.hwc6, h.hns0, h.hns7, h.hseq, h.hck,
              h.htimer⟩, by simp⟩
      · simp only [A_input, if_neg hc, if_pos hwc0]
        rw [if_neg (by simpa using hwin)]
        exact ⟨⟨h.hbuf, h.hrc, h.hdup, h.hwf0, h.hwf6, h.hwl0, h.hwl6, h.hwc6,
          h.hns0, h.hns7, h.hseq, h.hck, h.htimer⟩, by simp⟩
    · simp only [A_input, if_neg hc, if_neg hwc0]
      exact ⟨⟨h.hbuf, h.hrc, h.hdup, h.hwf0, h.hwf6, h.hwl0, h.hwl6, h.hwc6,
        h.hns0, h.hns7, h.hseq, h.hck, h.htimer⟩, by simp⟩

theorem AInv_timerLoop (now : ℚ) (l : List Nat) :
    ∀ acc : AState × List Pkt × List Int,
      AInv acc.1 → (∀ q ∈ acc.2.1, q.checksum = ComputeChecksum q) →
      AInv (l.foldl (timerLoopStep now) acc).1 ∧
        ∀ q ∈ (l.foldl (timerLoopStep now) acc).2.1,
          q.checksum = ComputeChecksum q := by
  induction l with
  | nil => exact fun acc h hs => ⟨h, hs⟩
  | cons a t ih =>
      intro acc h hs
      rw [List.foldl_cons]
      have hnn : (0:Int) ≤ acc.1.windowfirst + (a : Int) := by
        have := h.hwf0
        have := Int.natCast_nonneg a
        omega
      have hidx0 : 0 ≤ cmod (acc.1.windowfirst + (a : Int)) WINDOWSIZE :=
        cmod_nonneg _ _ hnn (by decide)
      have hidx6 : cmod (acc.1.windowfirst + (a : Int)) WINDOWSIZE < 6 := by
        have := cmod_lt (acc.1.windowfirst + (a : Int)) WINDOWSIZE hnn (by decide)
        simpa [WINDOWSIZE] using this
      have hidxNat : (cmod (acc.1.windowfirst + (a : Int)) WINDOWSIZE).toNat
          < acc.1.buffer.length := by
        rw [h.hbuf]
        omega
      have hmem := getPkt_mem acc.1.buffer _ hidx0 hidxNat
      apply ih
      · unfold timerLoopStep
        by_cases hcond : getI acc.1.retransmission_count
            (cmod (acc.1.windowfirst + (a : Int)) WINDOWSIZE) < MAX_RETRANSMISSIONS
        · rw [if_pos hcond]
          exact ⟨by rw [length_setPkt]; exact h.hbuf,
            by rw [length_setI]; exact h.hrc, h.hdup, h.hwf0, h.hwf6, h.hwl0,
            h.hwl6, h.hwc6, h.hns0, h.hns7,
            by
              intro q hq
              rcases mem_setPkt _ _ _ hq with hmemq | rfl
              · exact h.hseq q hmemq
              · exact h.hseq (getPkt acc.1.buffer
                  (cmod (acc.1.windowfirst + (a : Int)) WINDOWSIZE)) hmem,
            by
              intro q hq
              rcases mem_setPkt _ _ _ hq with hmemq | rfl
              · exact h.hck q hmemq
              · exact h.hck (getPkt acc.1.buffer
                  (cmod (acc.1.windowfirst + (a : Int)) WINDOWSIZE)) hmem,
            h.htimer⟩
        · rw [if_neg hcond]
          exact h
      · unfold timerLoopStep
        by_cases hcond : getI acc.1.retransmission_count
            (cmod (acc.1.windowfirst + (a : Int)) WINDOWSIZE) < MAX_RETRANSMISSIONS
        · rw [if_pos hcond]
          intro q hq
          rcases List.mem_append.mp hq with hq | hq
          · exact hs q hq
          · simp only [List.mem_singleton] at hq
            subst hq
            exact h.hck (getPkt acc.1.buffer
              (cmod (acc.1.windowfirst + (a : Int)) WINDOWSIZE)) hmem
        · rw [if_neg hcond]
          exact hs

/-- The common tail of `A_timerinterrupt`: the retransmission loop
followed by the timer restart preserves the invariant. -/
theorem AInv_timer_tail (now : ℚ) (s0 : AState) (h0 : AInv s0) :
    AInv { ((List.range s0.windowcount.toNat).foldl (timerLoopStep now)
          (s0, [], [])).1 with
        timer_running := decide
          (((List.range s0.windowcount.toNat).foldl (timerLoopStep now)
            (s0, [], [])).1.windowcount > 0) } ∧
      ∀ q ∈ ((List.range s0.windowcount.toNat).foldl (timerLoopStep now)
          (s0, [], [])).2.1,
        q.checksum = ComputeChecksum q := by
  have hloop := AInv_timerLoop now (List.range s0.windowcount.toNat)
    (s0, [], []) h0 (by simp)
  exact ⟨⟨hloop.1.hbuf, hloop.1.hrc, hloop.1.hdup, hloop.1.hwf0, hloop.1.hwf6,
    hloop.1.hwl0, hloop.1.hwl6, hloop.1.hwc6, hloop.1.hns0, hloop.1.hns7,
    hloop.1.hseq, hloop.1.hck, by simp⟩, hloop.2⟩

/-- The pre-loop update of `A_timerinterrupt` touches only the
consecutive-timeout counter, the timeout interval and the
network-condition flag, none of which the invariant constrains. -/
theorem AInv_timeoutBackoff (s : AState) (h : AInv s) :
    AInv (timeoutBackoff s) :=
  ⟨h.hbuf, h.hrc, h.hdup, h.hwf0, h.hwf6, h.hwl0, h.hwl6, h.hwc6, h.hns0,
   h.hns7, h.hseq, h.hck, h.htimer⟩

/-- Handler `A_timerinterrupt` preserves the invariant, and every packet it
retransmits is correctly checksummed. -/
theorem AInv_A_timerinterrupt (s : AState) (h : AInv s) (now : ℚ) :
    AInv (A_timerinterrupt s now).1 ∧
      ∀ q ∈ (A_timerinterrupt s now).2.1, q.checksum = ComputeChecksum q := by
  simp only [A_timerinterrupt]
  exact AInv_timer_tail now (timeoutBackoff s) (AInv_timeoutBackoff s h)

/-- Every sender event handler preserves the invariant, and every packet
transmitted during it is correctly checksummed. -/
theorem AInv_stepA (s : AState) (op : AOp) (h : AInv s) (hop : wfAOp op = true) :
    AInv (stepA s op).1 ∧ ∀ q ∈ (stepA s op).2, q.checksum = ComputeChecksum q := by
  cases op with
  | submit d g => exact AInv_A_output s h d g
  | recv p now => exact AInv_A_input s h p now hop
  | timeout now => exact AInv_A_timerinterrupt s h now

/-- Running any well-formed event sequence from an invariant-satisfying
state keeps the invariant, and every packet handed to `tolayer3` along
the way is correctly checksummed. -/
theorem AInv_runTraceA (ops : List AOp) :
    ∀ s : AState, AInv s → ops.all wfAOp = true →
      AInv (runTraceA s ops).1 ∧
        ∀ q ∈ (runTraceA s ops).2, q.checksum = ComputeChecksum q := by
  induction ops with
  | nil => exact fun s h _ => ⟨h, by simp [runTraceA]⟩
  | cons op rest ih =>
      intro s h hall
      rw [List.all_cons, Bool.and_eq_true] at hall
      have hstep := AInv_stepA s op h hall.1
      have hrest := ih (stepA s op).1 hstep.1 hall.2
      refine ⟨hrest.1, ?_⟩
      intro q hq
      rw [show runTraceA s (op :: rest)
          = ((runTraceA (stepA s op).1 rest).1,
             (stepA s op).2 ++ (runTraceA (stepA s op).1 rest).2) from rfl] at hq
      rcases List.mem_append.mp hq with hq | hq
      · exact hstep.2 q hq
      · exact hrest.2 q hq

/-! ### The checksum loop computes the plain sum -/
theorem checksum_fold (l : List Int) :
    ∀ init : Int,
      (List.range l.length).foldl (fun c i => c + l.getD i 0) init = init + l.sum := by
  induction l using List.reverseRecOn with
  | nil => simp
  | append_singleton t a ih =>
      intro init
      rw [List.length_append, List.length_singleton, List.range_succ,
        List.foldl_append]
      have hcongr : (List.range t.length).foldl
          (fun c i => c + (t ++ [a]).getD i 0) init
          = (List.range t.length).foldl (fun c i => c + t.getD i 0) init := by
        apply List.foldl_ext
        intro acc i hi
        rw [List.getD_append _ _ _ _ (List.mem_range.mp hi)]
      rw [hcongr, ih]
      simp only [List.foldl_cons, List.foldl_nil,
        List.getD_append_right _ _ _ _ (le_refl t.length), Nat.sub_self]
      simp [add_assoc]

/-- C8: for every packet with a 20-byte payload, the checksum both peers
compute equals the sum of `seqnum`, `acknum` and the 20 payload bytes,
and `IsCorrupted` holds exactly when the recomputed sum differs from the
stored `checksum` field. -/
theorem C8_checksum_spec (p : Pkt) (hlen : p.payload.length = 20) :
    ComputeChecksum p = p.seqnum + p.acknum + p.payload.sum ∧
      (IsCorrupted p = true ↔ p.checksum ≠ ComputeChecksum p) := by
  constructor
  · unfold ComputeChecksum
    rw [← hlen, checksum_fold]
  · unfold IsCorrupted
    by_cases h : p.checksum = ComputeChecksum p <;> simp [h]

theorem C8_checksum_spec_witness :
    (dataPkt 3 (List.replicate 20 7)).payload.length = 20 ∧
      (ComputeChecksum (dataPkt 3 (List.replicate 20 7))
          = (dataPkt 3 (List.replicate 20 7)).seqnum
            + (dataPkt 3 (List.replicate 20 7)).acknum
            + (dataPkt 3 (List.replicate 20 7)).payload.sum ∧
        (IsCorrupted (dataPkt 3 (List.replicate 20 7)) = true ↔
          (dataPkt 3 (List.replicate 20 7)).checksum
            ≠ ComputeChecksum (dataPkt 3 (List.replicate 20 7)))) :=
  ⟨by decide, C8_checksum_spec _ (by decide)⟩

/-! ### C6, C9, C10: invariant consequences -/
/-- C6: on every reachable sender state the number of outstanding packets
never exceeds `WINDOWSIZE`, and a submit arriving with the window full
transmits nothing and changes nothing except the window-full counter. -/
theorem C6_window_bound (s : AState) (h : reachableA s) :
    s.windowcount ≤ WINDOWSIZE ∧
      ∀ (d : List Int) (g : ℚ), s.windowcount = WINDOWSIZE →
        A_output s d g = ({ s with window_full := s.window_full + 1 }, []) := by
  obtain ⟨ops, hwf, rfl⟩ := h
  have hinv := (AInv_runTraceA ops A_init AInv_init hwf).1
  refine ⟨by simpa [WINDOWSIZE] using hinv.hwc6, ?_⟩
  intro d g hfull
  unfold A_output
  rw [if_neg (by rw [hfull]; exact lt_irrefl _)]

theorem C6_window_bound_witness :
    (runA A_init opsC6).windowcount ≤ WINDOWSIZE ∧
      A_output (runA A_init opsC6) (msgData 7) 0
        = ({ runA A_init opsC6 with
              window_full := (runA A_init opsC6).window_full + 1 }, []) :=
  ⟨(C6_window_bound _ ⟨opsC6, by decide, rfl⟩).1,
   (C6_window_bound _ ⟨opsC6, by decide, rfl⟩).2 (msgData 7) 0 (by decide)⟩

/-- C9: after every sender event handler, the retransmission timer is
running exactly when at least one packet is outstanding. -/
theorem C9_timer_discipline (s : AState) (h : reachableA s) :
    s.timer_running = true ↔ 0 < s.windowcount := by
  obtain ⟨ops, hwf, rfl⟩ := h
  exact (AInv_runTraceA ops A_init AInv_init hwf).1.htimer

theorem C9_timer_discipline_witness :
    ((runA A_init [.submit (msgData 0) 0, .submit (msgData 1) 0,
        .recv (ackPkt 1) 0]).timer_running = true
      ↔ 0 < (runA A_init [.submit (msgData 0) 0, .submit (msgData 1) 0,
        .recv (ackPkt 1) 0]).windowcount) :=
  C9_timer_discipline _ ⟨_, by decide, rfl⟩

theorem mkAck_checksum (a : Int) (t : ℚ) (b : Int) :
    (mkAck a t b).checksum = ComputeChecksum (mkAck a t b) := rfl

/-- C10: every packet either peer hands to `tolayer3` carries a checksum
equal to `ComputeChecksum` of itself, so absent channel corruption the
peer's `IsCorrupted` test on it returns `false`. -/
theorem C10_transmitted_wellformed (ops : List AOp) (hwf : ops.all wfAOp = true)
    (bs : BState) (p : Pkt) (now : ℚ) :
    (∀ q ∈ (runTraceA A_init ops).2,
        q.checksum = ComputeChecksum q ∧ IsCorrupted q = false) ∧
      (∀ q ∈ (B_input bs p now).2.2,
        q.checksum = ComputeChecksum q ∧ IsCorrupted q = false) := by
  constructor
  · intro q hq
    have hck := (AInv_runTraceA ops A_init AInv_init hwf).2 q hq
    exact ⟨hck, by simp [IsCorrupted, hck]⟩
  · intro q hq
    have hq' : q = mkAck
        (if IsCorrupted p then bs.last_acked_pkt.acknum
         else if p.seqnum = bs.expectedseqnum then
           cmod ((drain 7 (cmod (bs.expectedseqnum + 1) SEQSPACE)
             bs.out_of_order_pkts).1 + SEQSPACE - 1) SEQSPACE
         else cmod (bs.expectedseqnum + SEQSPACE - 1) SEQSPACE)
        (if IsCorrupted p then bs.last_acked_pkt.timestamp else now)
        bs.B_nextseqnum := by
      by_cases hc : IsCorrupted p
      · simp only [B_input, if_pos hc, List.mem_singleton] at hq
        simpa [hc] using hq
      · by_cases he : p.seqnum = bs.expectedseqnum
        · simp only [B_input, if_neg hc, if_pos he, List.mem_singleton] at hq
          simpa [hc, he] using hq
        · by_cases hw : seqInRcvWindow bs.expectedseqnum p.seqnum
          · simp only [B_input, if_neg hc, if_neg he, if_pos hw,
              List.mem_singleton] at hq
            simpa [hc, he] using hq
          · simp only [B_input, if_neg hc, if_neg he, if_neg hw,
              List.mem_singleton] at hq
            simpa [hc, he] using hq
    subst hq'
    exact ⟨mkAck_checksum _ _ _, by simp [IsCorrupted, mkAck_checksum]⟩

theorem C10_transmitted_wellformed_witness :
    opsC10.all wfAOp = true ∧
      ((∀ q ∈ (runTraceA A_init opsC10).2,
          q.checksum = ComputeChecksum q ∧ IsCorrupted q = false) ∧
        (∀ q ∈ (B_input B_init (dataPkt 0 (msgData 0)) 0).2.2,
          q.checksum = ComputeChecksum q ∧ IsCorrupted q = false)) :=
  ⟨by decide, C10_transmitted_wellformed opsC10 (by decide) B_init
    (dataPkt 0 (msgData 0)) 0⟩

/-! ### C2: the receiver's acknowledgement number -/
/-- C2 as the code actually behaves: for every uncorrupted arrival the
acknowledgement carries `(expectedseqnum' + SEQSPACE - 1) % SEQSPACE`,
where `expectedseqnum'` is the receiver's next-expected sequence number
after the arrival was processed — a cumulative ACK of the last in-order
position, not the arriving packet's own sequence number. -/
theorem C2_cumulative_ack (s : BState) (p : Pkt) (now : ℚ)
    (hnc : IsCorrupted p = false) :
    (B_input s p now).2.2.map Pkt.acknum
      = [cmod ((B_input s p now).1.expectedseqnum + SEQSPACE - 1) SEQSPACE] := by
  have hc : ¬ IsCorrupted p = true := by simp [hnc]
  by_cases he : p.seqnum = s.expectedseqnum
  · simp [B_input, if_neg hc, if_pos he, mkAck]
  · by_cases hw : seqInRcvWindow s.expectedseqnum p.seqnum
    · simp [B_input, if_neg hc, if_neg he, if_pos hw, mkAck]
    · simp [B_input, if_neg hc, if_neg he, if_neg hw, mkAck]

/-- C2 as stated is false: with a fresh receiver (`expectedseqnum = 0`),
the uncorrupted in-window out-of-order packet with sequence number 2 is
acknowledged with `acknum = 6`, not its own sequence number 2. -/
theorem C2_counterexample :
    IsCorrupted (dataPkt 2 (msgData 2)) = false ∧
      (B_input B_init (dataPkt 2 (msgData 2)) 0).2.2.map Pkt.acknum = [6] ∧
      (6 : Int) ≠ 2 := by
  decide

theorem C2_cumulative_ack_witness :
    IsCorrupted (dataPkt 2 (msgData 2)) = false ∧
      (B_input B_init (dataPkt 2 (msgData 2)) 0).2.2.map Pkt.acknum
        = [cmod ((B_input B_init (dataPkt 2 (msgData 2)) 0).1.expectedseqnum
            + SEQSPACE - 1) SEQSPACE] :=
  ⟨by decide, C2_cumulative_ack B_init (dataPkt 2 (msgData 2)) 0 (by decide)⟩

/-! ### C4: behaviour on a corrupted arrival -/
/-- C4 as the code actually behaves: the sender discards a corrupted
packet with no state change and sends nothing, while the receiver — far
from staying silent — delivers nothing and buffers nothing but
retransmits its saved last acknowledgement (same `acknum` and timestamp,
fresh alternating `seqnum`), updating `B_nextseqnum` and
`last_acked_pkt`. -/
theorem C4_corruption_handling (sA : AState) (sB : BState) (p : Pkt) (now : ℚ)
    (hc : IsCorrupted p = true) :
    A_input sA p now = (sA, []) ∧
      (B_input sB p now).2.1 = [] ∧
      (B_input sB p now).1.expectedseqnum = sB.expectedseqnum ∧
      (B_input sB p now).1.out_of_order_pkts = sB.out_of_order_pkts ∧
      (B_input sB p now).2.2
        = [mkAck sB.last_acked_pkt.acknum sB.last_acked_pkt.timestamp
            sB.B_nextseqnum] ∧
      (B_input sB p now).1.B_nextseqnum = cmod (sB.B_nextseqnum + 1) 2 := by
  refine ⟨by simp [A_input, hc], ?_, ?_, ?_, ?_, ?_⟩ <;>
    simp [B_input, hc]

/-- C4 as stated is false on the receiver side: a corrupted arrival at a
fresh receiver still causes one packet (an acknowledgement) to be handed
to `tolayer3`. -/
theorem C4_counterexample :
    IsCorrupted corruptPkt = true ∧
      (B_input B_init corruptPkt 0).2.2.length = 1 := by
  decide

theorem C4_corruption_handling_witness :
    IsCorrupted corruptPkt = true ∧
      (A_input A_init corruptPkt 0 = (A_init, []) ∧
        (B_input B_init corruptPkt 0).2.1 = [] ∧
        (B_input B_init corruptPkt 0).1.expectedseqnum = B_init.expectedseqnum ∧
        (B_input B_init corruptPkt 0).1.out_of_order_pkts
          = B_init.out_of_order_pkts ∧
        (B_input B_init corruptPkt 0).2.2
          = [mkAck B_init.last_acked_pkt.acknum B_init.last_acked_pkt.timestamp
              B_init.B_nextseqnum] ∧
        (B_input B_init corruptPkt 0).1.B_nextseqnum
          = cmod (B_init.B_nextseqnum + 1) 2) :=
  ⟨by decide, C4_corruption_handling A_init B_init corruptPkt 0 (by decide)⟩

/-- C1 fails on the code: when packets 1 and 0 arrive out of order
(uncorrupted), only payload 0 is ever handed to `tolayer5`.  The drain
loop clears packet 1's presence flag and advances `expectedseqnum` to 2
without delivering its payload (the receiver stores only flags, not
payloads), and the re-arrival of packet 1 is then out of window, so the
application never receives message 1: deliveries have a permanent gap. -/
theorem C1_buffered_payload_never_delivered :
    (runB B_init opsC1).2.1 = [msgData 0] ∧
      (runB B_init opsC1).1.expectedseqnum = 2 ∧
      (runB B_init opsC1).1.out_of_order_pkts = List.replicate 7 0 := by
  decide

/-- C3 as stated is false: after ACK 2 arrives the window does not stay
at base 0 (three packets are retired, `windowcount` drops to 3), and the
three duplicate ACKs for 2 trigger no retransmission at all
(`packets_resent` stays 0) — in particular packet 0 is never fast
retransmitted. -/
theorem C3_counterexample :
    (runA A_init opsC3).windowcount ≠ 6 ∧
      (runA A_init opsC3).packets_resent = 0 := by
  decide

/-- C3 as the code actually behaves: the uncorrupted ACK 2 is treated as
a cumulative acknowledgement, retiring packets 0, 1 and 2 in one step
(`windowfirst` advances from 0 to 3, `windowcount` from 6 to 3,
`last_ack` becomes 2), and the three subsequent duplicate ACKs for 2
fall outside the remaining window [3,5] and are ignored: the sender
transmits nothing beyond the six original packets. -/
theorem C3_cumulative_slide :
    (runA A_init opsC3).windowcount = 3 ∧
      (runA A_init opsC3).windowfirst = 3 ∧
      (runA A_init opsC3).last_ack = 2 ∧
      (runTraceA A_init opsC3).2.length = 6 ∧
      ((runTraceA A_init opsC3).2.map Pkt.seqnum = [0, 1, 2, 3, 4, 5]) := by
  decide

/-! ### C7: the RTT estimator -/
/-- How `A_input` updates the RTT estimator on an uncorrupted new
in-window acknowledgement: the sample is taken only when the
`windowfirst` slot's retransmission counter is zero; `estimated_rtt` and
`dev_rtt` follow the EWMA with α = 1/8 and β = 1/4 (the deviation using
the already-updated estimate); and `timeout_interval`, a C `int`,
receives the truncation of `estimatedRTT + 4·devRTT` clamped into
`[RTT_MIN, RTT_MAX]`.  When the slot's counter is nonzero, estimate,
deviation and timeout are left untouched. -/
theorem rttUpdate_spec (s : AState) (p : Pkt) (now : ℚ)
    (hnc : IsCorrupted p = false)
    (hwc : s.windowcount ≠ (0 : Int))
    (hwin : ackInWindow (getPkt s.buffer s.windowfirst).seqnum
      (getPkt s.buffer s.windowlast).seqnum p.acknum = true)
    (hnew : p.acknum ≠ s.last_ack) :
    (getI s.retransmission_count s.windowfirst = 0 →
        (A_input s p now).1.estimated_rtt
          = (1 - RTT_ALPHA) * s.estimated_rtt + RTT_ALPHA * (now - p.timestamp) ∧
        (A_input s p now).1.dev_rtt
          = (1 - RTT_BETA) * s.dev_rtt
            + RTT_BETA * |(now - p.timestamp) - (A_input s p now).1.estimated_rtt| ∧
        (A_input s p now).1.timeout_interval
          = max (cTrunc RTT_MIN) (min (cTrunc RTT_MAX)
              (cTrunc ((A_input s p now).1.estimated_rtt
                + 4 * (A_input s p now).1.dev_rtt)))) ∧
      (getI s.retransmission_count s.windowfirst ≠ 0 →
        (A_input s p now).1.estimated_rtt = s.estimated_rtt ∧
        (A_input s p now).1.dev_rtt = s.dev_rtt ∧
        (A_input s p now).1.timeout_interval = s.timeout_interval) := by
  have hc : ¬ IsCorrupted p = true := by simp [hnc]
  constructor
  · intro hrt
    simp only [A_input, if_neg hc, if_pos hwc, hwin, if_pos hnew, if_pos hrt,
      if_true, reduceIte]
    refine ⟨?_, ?_, ?_⟩
    · trivial
    · trivial
    dsimp only
    set t : Int := cTrunc ((1 - RTT_ALPHA) * s.estimated_rtt
      + RTT_ALPHA * (now - p.timestamp)
      + 4 * ((1 - RTT_BETA) * s.dev_rtt
        + RTT_BETA * |now - p.timestamp
          - ((1 - RTT_ALPHA) * s.estimated_rtt
            + RTT_ALPHA * (now - p.timestamp))|)) with ht
    have h8 : cTrunc RTT_MIN = 8 := by decide
    have h64 : cTrunc RTT_MAX = 64 := by decide
    rw [h8, h64]
    by_cases hlo : (t : ℚ) < RTT_MIN
    · have hlo' : t < 8 := by
        have : (t : ℚ) < ((8 : Int) : ℚ) := by norm_num [RTT_MIN] at hlo ⊢; exact hlo
        exact_mod_cast this
      rw [if_pos hlo]
      rw [if_neg (by norm_num [RTT_MAX])]
      omega
    · have hlo' : ¬ t < 8 := by
        intro habs
        apply hlo
        have : (t : ℚ) < ((8 : Int) : ℚ) := by exact_mod_cast habs
        simpa [RTT_MIN] using this
      rw [if_neg hlo]
      by_cases hhi : (t : ℚ) > RTT_MAX
      · have hhi' : 64 < t := by
          have : ((64 : Int) : ℚ) < (t : ℚ) := by
            simpa [RTT_MAX] using hhi
          exact_mod_cast this
        rw [if_pos hhi]
        omega
      · have hhi' : ¬ 64 < t := by
          intro habs
          apply hhi
          have : ((64 : Int) : ℚ) < (t : ℚ) := by exact_mod_cast habs
          simpa [RTT_MAX] using this
        rw [if_neg hhi]
        omega
  · intro hrt
    simp only [A_input, if_neg hc, if_pos hwc, hwin, if_pos hnew, if_neg hrt,
      if_true, reduceIte]
    refine ⟨?_, ?_, ?_⟩ <;> trivial

/-- C7 as the code actually behaves, stated for any uncorrupted new
in-window acknowledgement.  The sample is taken only when the
`windowfirst` slot's retransmission counter is zero (the counter of the
oldest outstanding slot, not necessarily of the entry the ACK names);
`estimated_rtt` and `dev_rtt` follow the EWMA with α = 1/8 and β = 1/4
(the deviation using the already-updated estimate); and
`timeout_interval`, a C `int`, receives the TRUNCATION of
`estimatedRTT + 4·devRTT` clamped into `[RTT_MIN, RTT_MAX]`.  When the
slot's counter is nonzero, estimate, deviation and timeout are left
untouched. -/
theorem C7_rtt_update (s : AState) (p : Pkt) (now : ℚ)
    (hnc : IsCorrupted p = false)
    (hwc : s.windowcount ≠ (0 : Int))
    (hwin : ackInWindow (getPkt s.buffer s.windowfirst).seqnum
      (getPkt s.buffer s.windowlast).seqnum p.acknum = true)
    (hnew : p.acknum ≠ s.last_ack) :
    (getI s.retransmission_count s.windowfirst = 0 →
        (A_input s p now).1.estimated_rtt
          = (1 - RTT_ALPHA) * s.estimated_rtt + RTT_ALPHA * (now - p.timestamp) ∧
        (A_input s p now).1.dev_rtt
          = (1 - RTT_BETA) * s.dev_rtt
            + RTT_BETA * |(now - p.timestamp) - (A_input s p now).1.estimated_rtt| ∧
        (A_input s p now).1.timeout_interval
          = max (cTrunc RTT_MIN) (min (cTrunc RTT_MAX)
              (cTrunc ((A_input s p now).1.estimated_rtt
                + 4 * (A_input s p now).1.dev_rtt)))) ∧
      (getI s.retransmission_count s.windowfirst ≠ 0 →
        (A_input s p now).1.estimated_rtt = s.estimated_rtt ∧
        (A_input s p now).1.dev_rtt = s.dev_rtt ∧
        (A_input s p now).1.timeout_interval = s.timeout_interval) :=
  rttUpdate_spec s p now hnc hwc hwin hnew

/-- Truncation `cTrunc` on a nonnegative rational is the floor. -/
theorem cTrunc_eq_floor (q : ℚ) (h : 0 ≤ q) : cTrunc q = ⌊q⌋ := by
  unfold cTrunc
  rw [Int.tdiv_eq_ediv (Rat.num_nonneg.mpr h) (by positivity), Rat.floor_def]

/-- C7 as stated is false: processing this acknowledgement updates the
estimate to `15.25` and the deviation to `7.3125`, so
`estimatedRTT + 4·devRTT = 44.5`, which lies inside `[RTT_MIN, RTT_MAX]`
— yet the stored `timeout_interval` is the C `int` 44, not 44.5: the
assignment truncates, `timeoutInterval ≠ estimatedRTT + 4·devRTT`. -/
theorem C7_counterexample :
    getI sC7.retransmission_count sC7.windowfirst = 0 ∧
      RTT_MIN ≤ (A_input sC7 ackTsPkt 0).1.estimated_rtt
        + 4 * (A_input sC7 ackTsPkt 0).1.dev_rtt ∧
      (A_input sC7 ackTsPkt 0).1.estimated_rtt
        + 4 * (A_input sC7 ackTsPkt 0).1.dev_rtt ≤ RTT_MAX ∧
      ((A_input sC7 ackTsPkt 0).1.timeout_interval : ℚ)
        ≠ (A_input sC7 ackTsPkt 0).1.estimated_rtt
          + 4 * (A_input sC7 ackTsPkt 0).1.dev_rtt := by
  have hupd := (rttUpdate_spec sC7 ackTsPkt 0 (by decide) (by decide) (by decide)
    (by decide)).1 (by decide)
  obtain ⟨hest0, hdev0, hti0⟩ := hupd
  have e1 : sC7.estimated_rtt = 16 := rfl
  have e2 : sC7.dev_rtt = BASE_RTT / 2 := rfl
  have e3 : ackTsPkt.timestamp = -10 := rfl
  have hest : (A_input sC7 ackTsPkt 0).1.estimated_rtt = 61/4 := by
    rw [hest0, e1, e3]
    norm_num [RTT_ALPHA]
  have hdev : (A_input sC7 ackTsPkt 0).1.dev_rtt = 117/16 := by
    rw [hdev0, e2, e3, hest]
    have habs : |(0:ℚ) - (-10) - 61/4| = 21/4 := by
      rw [show (0:ℚ) - (-10) - 61/4 = -(21/4) by norm_num, abs_neg,
        abs_of_nonneg (by norm_num)]
    rw [habs]
    norm_num [RTT_BETA, BASE_RTT]
  have hsum : (A_input sC7 ackTsPkt 0).1.estimated_rtt
      + 4 * (A_input sC7 ackTsPkt 0).1.dev_rtt = 89/2 := by
    rw [hest, hdev]
    norm_num
  have hc89 : cTrunc (89/2 : ℚ) = 44 := by
    rw [cTrunc_eq_floor _ (by norm_num), Int.floor_eq_iff]
    norm_num
  have hti : (A_input sC7 ackTsPkt 0).1.timeout_interval = 44 := by
    rw [hti0, hsum, hc89]
    decide
  refine ⟨by decide, ?_, ?_, ?_⟩
  · rw [hsum]
    norm_num [RTT_MIN]
  · rw [hsum]
    norm_num [RTT_MAX]
  · rw [hti, hsum]
    norm_num

theorem C7_rtt_update_witness :
    IsCorrupted ackTsPkt = false ∧
      sC7.windowcount ≠ (0 : Int) ∧
      ackInWindow (getPkt sC7.buffer sC7.windowfirst).seqnum
        (getPkt sC7.buffer sC7.windowlast).seqnum ackTsPkt.acknum = true ∧
      ackTsPkt.acknum ≠ sC7.last_ack ∧
      ((getI sC7.retransmission_count sC7.windowfirst = 0 →
          (A_input sC7 ackTsPkt 0).1.estimated_rtt
            = (1 - RTT_ALPHA) * sC7.estimated_rtt
              + RTT_ALPHA * (0 - ackTsPkt.timestamp) ∧
          (A_input sC7 ackTsPkt 0).1.dev_rtt
            = (1 - RTT_BETA) * sC7.dev_rtt
              + RTT_BETA * |(0 - ackTsPkt.timestamp)
                - (A_input sC7 ackTsPkt 0).1.estimated_rtt| ∧
          (A_input sC7 ackTsPkt 0).1.timeout_interval
            = max (cTrunc RTT_MIN) (min (cTrunc RTT_MAX)
                (cTrunc ((A_input sC7 ackTsPkt 0).1.estimated_rtt
                  + 4 * (A_input sC7 ackTsPkt 0).1.dev_rtt)))) ∧
        (getI sC7.retransmission_count sC7.windowfirst ≠ 0 →
          (A_input sC7 ackTsPkt 0).1.estimated_rtt = sC7.estimated_rtt ∧
          (A_input sC7 ackTsPkt 0).1.dev_rtt = sC7.dev_rtt ∧
          (A_input sC7 ackTsPkt 0).1.timeout_interval = sC7.timeout_interval)) :=
  ⟨by decide, by decide, by decide, by decide,
   C7_rtt_update sC7 ackTsPkt 0 (by decide) (by decide) (by decide) (by decide)⟩

/-! ### C5: exact characterisation of the timeout retransmission loop -/
theorem loopIdx_nodup (wf : Int) (hwf : 0 ≤ wf) (n : Nat) (hn : n ≤ 6) :
    ((List.range n).map (fun (i : Nat) => cmod (wf + (i : Int)) WINDOWSIZE)).Nodup := by
  refine List.Nodup.map_on ?_ (List.nodup_range n)
  intro i hi j hj hij
  rw [List.mem_range] at hi hj
  have hi' : (0:Int) ≤ wf + (i : Int) := by omega
  have hj' : (0:Int) ≤ wf + (j : Int) := by omega
  rw [cmod_eq_emod _ _ hi' (by decide), cmod_eq_emod _ _ hj' (by decide)] at hij
  simp only [WINDOWSIZE] at hij
  omega

/-- Specification of the retransmission loop of `A_timerinterrupt`, by
induction over the remaining window offsets: relative to a reference
state `s0`, provided the iterated buffer indices are pairwise distinct
and the accumulator state agrees with `s0` on them, the loop transmits
exactly the refreshed packets of the slots below the retry bound (in
window order), reports exactly the sequence numbers of the slots at or
past the bound, bumps the counter and refreshes the timestamp of each
resent slot, and leaves every other slot untouched. -/
theorem timerLoop_spec (now : ℚ) (s0 : AState) :
    ∀ (l : List Nat) (st : AState) (sent : List Pkt) (rep : List Int),
      st.windowfirst = s0.windowfirst →
      st.buffer.length = 6 →
      st.retransmission_count.length = 6 →
      (∀ i : Nat, i ∈ l →
        getI st.retransmission_count (cmod (s0.windowfirst + (i : Int)) WINDOWSIZE)
            = getI s0.retransmission_count
                (cmod (s0.windowfirst + (i : Int)) WINDOWSIZE) ∧
          getPkt st.buffer (cmod (s0.windowfirst + (i : Int)) WINDOWSIZE)
            = getPkt s0.buffer (cmod (s0.windowfirst + (i : Int)) WINDOWSIZE)) →
      (∀ i : Nat, i ∈ l → 0 ≤ cmod (s0.windowfirst + (i : Int)) WINDOWSIZE ∧
        cmod (s0.windowfirst + (i : Int)) WINDOWSIZE < 6) →
      (l.map (fun (i : Nat) => cmod (s0.windowfirst + (i : Int)) WINDOWSIZE)).Nodup →
      (l.foldl (timerLoopStep now) (st, sent, rep)).1.windowfirst = s0.windowfirst ∧
      (l.foldl (timerLoopStep now) (st, sent, rep)).1.buffer.length = 6 ∧
      (l.foldl (timerLoopStep now) (st, sent, rep)).1.retransmission_count.length = 6 ∧
      (l.foldl (timerLoopStep now) (st, sent, rep)).1.windowcount = st.windowcount ∧
      (l.foldl (timerLoopStep now) (st, sent, rep)).2.1
          = sent ++ l.filterMap (fun (i : Nat) =>
              if getI s0.retransmission_count
                  (cmod (s0.windowfirst + (i : Int)) WINDOWSIZE)
                  < MAX_RETRANSMISSIONS then
                some { getPkt s0.buffer (cmod (s0.windowfirst + (i : Int)) WINDOWSIZE)
                        with timestamp := now }
              else none) ∧
      (l.foldl (timerLoopStep now) (st, sent, rep)).2.2
          = rep ++ l.filterMap (fun (i : Nat) =>
              if getI s0.retransmission_count
                  (cmod (s0.windowfirst + (i : Int)) WINDOWSIZE)
                  < MAX_RETRANSMISSIONS then none
              else some (getPkt s0.buffer
                  (cmod (s0.windowfirst + (i : Int)) WINDOWSIZE)).seqnum) ∧
      (∀ i : Nat, i ∈ l →
        (getI s0.retransmission_count (cmod (s0.windowfirst + (i : Int)) WINDOWSIZE)
            < MAX_RETRANSMISSIONS →
          getI (l.foldl (timerLoopStep now) (st, sent, rep)).1.retransmission_count
              (cmod (s0.windowfirst + (i : Int)) WINDOWSIZE)
            = getI s0.retransmission_count
                (cmod (s0.windowfirst + (i : Int)) WINDOWSIZE) + 1 ∧
          getPkt (l.foldl (timerLoopStep now) (st, sent, rep)).1.buffer
              (cmod (s0.windowfirst + (i : Int)) WINDOWSIZE)
            = { getPkt s0.buffer (cmod (s0.windowfirst + (i : Int)) WINDOWSIZE)
                with timestamp := now }) ∧
        (¬ getI s0.retransmission_count (cmod (s0.windowfirst + (i : Int)) WINDOWSIZE)
            < MAX_RETRANSMISSIONS →
          getI (l.foldl (timerLoopStep now) (st, sent, rep)).1.retransmission_count
              (cmod (s0.windowfirst + (i : Int)) WINDOWSIZE)
            = getI s0.retransmission_count
                (cmod (s0.windowfirst + (i : Int)) WINDOWSIZE) ∧
          getPkt (l.foldl (timerLoopStep now) (st, sent, rep)).1.buffer
              (cmod (s0.windowfirst + (i : Int)) WINDOWSIZE)
            = getPkt s0.buffer (cmod (s0.windowfirst + (i : Int)) WINDOWSIZE))) ∧
      (∀ j : Int,
        (∀ i : Nat, i ∈ l → j ≠ cmod (s0.windowfirst + (i : Int)) WINDOWSIZE) →
        getI (l.foldl (timerLoopStep now) (st, sent, rep)).1.retransmission_count j
            = getI st.retransmission_count j ∧
          getPkt (l.foldl (timerLoopStep now) (st, sent, rep)).1.buffer j
            = getPkt st.buffer j) := by
  intro l
  induction l with
  | nil =>
      intro st sent rep hwfeq hbl hrl _ _ _
      exact ⟨hwfeq, hbl, hrl, rfl, by simp, by simp, by simp, fun j _ => ⟨rfl, rfl⟩⟩
  | cons a t ih =>
      intro st sent rep hwfeq hbl hrl hagree hbounds hnd
      have hag := hagree a (List.mem_cons_self a t)
      have hbd := hbounds a (List.mem_cons_self a t)
      have hidxNatR : (cmod (s0.windowfirst + (a : Int)) WINDOWSIZE).toNat
          < st.retransmission_count.length := by rw [hrl]; omega
      have hidxNatB : (cmod (s0.windowfirst + (a : Int)) WINDOWSIZE).toNat
          < st.buffer.length := by rw [hbl]; omega
      rw [List.map_cons, List.nodup_cons] at hnd
      have hne : ∀ i ∈ t, cmod (s0.windowfirst + (a : Int)) WINDOWSIZE
          ≠ cmod (s0.windowfirst + (i : Int)) WINDOWSIZE := by
        intro i hi habs
        exact hnd.1 (habs ▸ List.mem_map_of_mem _ hi)
      rw [List.foldl_cons]
      by_cases hcond : getI st.retransmission_count
          (cmod (s0.windowfirst + (a : Int)) WINDOWSIZE) < MAX_RETRANSMISSIONS
      · -- the slot is below the retry bound: refresh, transmit, bump
        have hstep : timerLoopStep now (st, sent, rep) a
            = ({ st with
                  buffer := setPkt st.buffer
                    (cmod (s0.windowfirst + (a : Int)) WINDOWSIZE)
                    { getPkt st.buffer (cmod (s0.windowfirst + (a : Int)) WINDOWSIZE)
                      with timestamp := now }
                  packets_resent := st.packets_resent + 1
                  retransmission_count := setI st.retransmission_count
                    (cmod (s0.windowfirst + (a : Int)) WINDOWSIZE)
                    (getI st.retransmission_count
                      (cmod (s0.windowfirst + (a : Int)) WINDOWSIZE) + 1) },
               sent ++ [{ getPkt st.buffer
                  (cmod (s0.windowfirst + (a : Int)) WINDOWSIZE)
                  with timestamp := now }], rep) := by
          simp only [timerLoopStep, hwfeq, if_pos hcond]
        have ihr := ih (timerLoopStep now (st, sent, rep) a).1
          (timerLoopStep now (st, sent, rep) a).2.1
          (timerLoopStep now (st, sent, rep) a).2.2
          (by simp only [hstep]; exact hwfeq)
          (by simp only [hstep]; rw [length_setPkt]; exact hbl)
          (by simp only [hstep]; rw [length_setI]; exact hrl)
          (by
            intro i hi
            simp only [hstep]
            rw [getI_setI_ne _ _ _ _ (hne i hi),
              getPkt_setPkt_ne _ _ _ _ (hne i hi)]
            exact hagree i (List.mem_cons_of_mem a hi))
          (fun i hi => hbounds i (List.mem_cons_of_mem a hi)) hnd.2
        simp only [hstep] at ihr ⊢
        obtain ⟨q1, q2, q3, q4, q5, q6, q7, q8⟩ := ihr
        have huntouched := q8 (cmod (s0.windowfirst + (a : Int)) WINDOWSIZE) hne
        have hsetc : getI (setI st.retransmission_count
            (cmod (s0.windowfirst + (a : Int)) WINDOWSIZE)
            (getI st.retransmission_count
              (cmod (s0.windowfirst + (a : Int)) WINDOWSIZE) + 1))
            (cmod (s0.windowfirst + (a : Int)) WINDOWSIZE)
            = getI st.retransmission_count
              (cmod (s0.windowfirst + (a : Int)) WINDOWSIZE) + 1 :=
          getI_setI_self _ _ _ hbd.1 hidxNatR
        have hsetb : getPkt (setPkt st.buffer
            (cmod (s0.windowfirst + (a : Int)) WINDOWSIZE)
            { getPkt st.buffer (cmod (s0.windowfirst + (a : Int)) WINDOWSIZE)
              with timestamp := now })
            (cmod (s0.windowfirst + (a : Int)) WINDOWSIZE)
            = { getPkt st.buffer (cmod (s0.windowfirst + (a : Int)) WINDOWSIZE)
                with timestamp := now } :=
          getPkt_setPkt_self _ _ _ hbd.1 hidxNatB
        refine ⟨q1, q2, q3, q4, ?_, ?_, ?_, ?_⟩
        · rw [q5, List.filterMap_cons]
          rw [if_pos (hag.1 ▸ hcond), hag.2]
          simp [List.append_assoc]
        · rw [q6, List.filterMap_cons, if_pos (hag.1 ▸ hcond)]
        · intro i hi
          rcases List.mem_cons.mp hi with rfl | hi
          · constructor
            · intro _
              refine ⟨?_, ?_⟩
              · rw [huntouched.1, hsetc, hag.1]
              · rw [huntouched.2, hsetb, hag.2]
            · intro hn0
              exact absurd (hag.1 ▸ hcond) hn0
          · exact q7 i hi
        · intro j hj
          have hj' := q8 j fun i hi => hj i (List.mem_cons_of_mem a hi)
          refine ⟨?_, ?_⟩
          · rw [hj'.1,
              getI_setI_ne _ _ _ _ (fun h => hj a (List.mem_cons_self a t) h.symm)]
          · rw [hj'.2,
              getPkt_setPkt_ne _ _ _ _ (fun h => hj a (List.mem_cons_self a t) h.symm)]
      · -- the slot is at or past the retry bound: report, skip
        have hstep : timerLoopStep now (st, sent, rep) a
            = (st, sent, rep ++ [(getPkt st.buffer
                (cmod (s0.windowfirst + (a : Int)) WINDOWSIZE)).seqnum]) := by
          simp only [timerLoopStep, hwfeq, if_neg hcond]
        have ihr := ih st sent
          (rep ++ [(getPkt st.buffer
            (cmod (s0.windowfirst + (a : Int)) WINDOWSIZE)).seqnum])
          hwfeq hbl hrl
          (fun i hi => hagree i (List.mem_cons_of_mem a hi))
          (fun i hi => hbounds i (List.mem_cons_of_mem a hi)) hnd.2
        simp only [hstep]
        obtain ⟨q1, q2, q3, q4, q5, q6, q7, q8⟩ := ihr
        have huntouched := q8 (cmod (s0.windowfirst + (a : Int)) WINDOWSIZE) hne
        refine ⟨q1, q2, q3, q4, ?_, ?_, ?_,
          fun j hj => q8 j (fun i hi => hj i (List.mem_cons_of_mem a hi))⟩
        · rw [q5, List.filterMap_cons, if_neg (hag.1 ▸ hcond)]
        · rw [q6, List.filterMap_cons, if_neg (hag.1 ▸ hcond), hag.2]
          simp [List.append_assoc]
        · intro i hi
          rcases List.mem_cons.mp hi with rfl | hi
          · constructor
            · intro h0
              exact absurd (hag.1 ▸ h0) hcond
            · intro _
              refine ⟨?_, ?_⟩
              · rw [huntouched.1, hag.1]
              · rw [huntouched.2, hag.2]
          · exact q7 i hi

/-- The retransmission loop of `A_timerinterrupt`, run from its own
state with empty accumulators. -/
theorem C5core (now : ℚ) (s0 : AState) (hbuf : s0.buffer.length = 6)
    (hrc : s0.retransmission_count.length = 6) (hwf0 : 0 ≤ s0.windowfirst)
    (hwc : s0.windowcount ≤ 6) :
    ((List.range s0.windowcount.toNat).foldl (timerLoopStep now) (s0, [], [])).2.1
        = (List.range s0.windowcount.toNat).filterMap (fun (i : Nat) =>
            if getI s0.retransmission_count
                (cmod (s0.windowfirst + (i : Int)) WINDOWSIZE)
                < MAX_RETRANSMISSIONS then
              some { getPkt s0.buffer (cmod (s0.windowfirst + (i : Int)) WINDOWSIZE)
                      with timestamp := now }
            else none) ∧
      ((List.range s0.windowcount.toNat).foldl (timerLoopStep now) (s0, [], [])).2.2
        = (List.range s0.windowcount.toNat).filterMap (fun (i : Nat) =>
            if getI s0.retransmission_count
                (cmod (s0.windowfirst + (i : Int)) WINDOWSIZE)
                < MAX_RETRANSMISSIONS then none
            else some (getPkt s0.buffer
                (cmod (s0.windowfirst + (i : Int)) WINDOWSIZE)).seqnum) ∧
      (∀ i : Nat, i < s0.windowcount.toNat →
        (getI s0.retransmission_count (cmod (s0.windowfirst + (i : Int)) WINDOWSIZE)
            < MAX_RETRANSMISSIONS →
          getI ((List.range s0.windowcount.toNat).foldl (timerLoopStep now)
                (s0, [], [])).1.retransmission_count
              (cmod (s0.windowfirst + (i : Int)) WINDOWSIZE)
            = getI s0.retransmission_count
                (cmod (s0.windowfirst + (i : Int)) WINDOWSIZE) + 1 ∧
          getPkt ((List.range s0.windowcount.toNat).foldl (timerLoopStep now)
                (s0, [], [])).1.buffer
              (cmod (s0.windowfirst + (i : Int)) WINDOWSIZE)
            = { getPkt s0.buffer (cmod (s0.windowfirst + (i : Int)) WINDOWSIZE)
                with timestamp := now }) ∧
        (¬ getI s0.retransmission_count
            (cmod (s0.windowfirst + (i : Int)) WINDOWSIZE) < MAX_RETRANSMISSIONS →
          getI ((List.range s0.windowcount.toNat).foldl (timerLoopStep now)
                (s0, [], [])).1.retransmission_count
              (cmod (s0.windowfirst + (i : Int)) WINDOWSIZE)
            = getI s0.retransmission_count
                (cmod (s0.windowfirst + (i : Int)) WINDOWSIZE) ∧
          getPkt ((List.range s0.windowcount.toNat).foldl (timerLoopStep now)
                (s0, [], [])).1.buffer
              (cmod (s0.windowfirst + (i : Int)) WINDOWSIZE)
            = getPkt s0.buffer (cmod (s0.windowfirst + (i : Int)) WINDOWSIZE))) := by
  have hbounds : ∀ i : Nat, i ∈ List.range s0.windowcount.toNat →
      0 ≤ cmod (s0.windowfirst + (i : Int)) WINDOWSIZE ∧
        cmod (s0.windowfirst + (i : Int)) WINDOWSIZE < 6 := by
    intro i _
    have hnn : (0:Int) ≤ s0.windowfirst + (i : Int) := by
      have := Int.natCast_nonneg i
      omega
    refine ⟨cmod_nonneg _ _ hnn (by decide), ?_⟩
    have := cmod_lt _ WINDOWSIZE hnn (by decide)
    simpa [WINDOWSIZE] using this
  have hnodup := loopIdx_nodup s0.windowfirst hwf0 s0.windowcount.toNat (by omega)
  have hspec := timerLoop_spec now s0 (List.range s0.windowcount.toNat) s0 [] []
    rfl hbuf hrc (fun _ _ => ⟨rfl, rfl⟩) hbounds hnodup
  obtain ⟨_, _, _, _, q5, q6, q7, _⟩ := hspec
  rw [List.nil_append] at q5 q6
  exact ⟨q5, q6, fun i hi => q7 i (List.mem_range.mpr hi)⟩

/-- C5: on timer expiry the sender retransmits exactly those outstanding
window slots whose retransmission count is below
`MAX_RETRANSMISSIONS = 5`, in window order and with refreshed
timestamps, incrementing each resent slot's count; every slot at or past
the bound is skipped — not handed to `tolayer3`, its count and stored
packet unchanged (hence skipped again at every later timeout) — and its
sequence number is reported as given up, while the remaining slots are
still retransmitted normally. -/
theorem C5_timeout_retransmission (s : AState) (now : ℚ)
    (hbuf : s.buffer.length = 6) (hrc : s.retransmission_count.length = 6)
    (hwf0 : 0 ≤ s.windowfirst) (hwc : s.windowcount ≤ 6) :
    (A_timerinterrupt s now).2.1
        = (List.range s.windowcount.toNat).filterMap (fun (i : Nat) =>
            if getI s.retransmission_count
                (cmod (s.windowfirst + (i : Int)) WINDOWSIZE)
                < MAX_RETRANSMISSIONS then
              some { getPkt s.buffer (cmod (s.windowfirst + (i : Int)) WINDOWSIZE)
                      with timestamp := now }
            else none) ∧
      (A_timerinterrupt s now).2.2
        = (List.range s.windowcount.toNat).filterMap (fun (i : Nat) =>
            if getI s.retransmission_count
                (cmod (s.windowfirst + (i : Int)) WINDOWSIZE)
                < MAX_RETRANSMISSIONS then none
            else some (getPkt s.buffer
                (cmod (s.windowfirst + (i : Int)) WINDOWSIZE)).seqnum) ∧
      (∀ i : Nat, i < s.windowcount.toNat →
        (getI s.retransmission_count (cmod (s.windowfirst + (i : Int)) WINDOWSIZE)
            < MAX_RETRANSMISSIONS →
          getI (A_timerinterrupt s now).1.retransmission_count
              (cmod (s.windowfirst + (i : Int)) WINDOWSIZE)
            = getI s.retransmission_count
                (cmod (s.windowfirst + (i : Int)) WINDOWSIZE) + 1 ∧
          getPkt (A_timerinterrupt s now).1.buffer
              (cmod (s.windowfirst + (i : Int)) WINDOWSIZE)
            = { getPkt s.buffer (cmod (s.windowfirst + (i : Int)) WINDOWSIZE)
                with timestamp := now }) ∧
        (¬ getI s.retransmission_count
            (cmod (s.windowfirst + (i : Int)) WINDOWSIZE) < MAX_RETRANSMISSIONS →
          getI (A_timerinterrupt s now).1.retransmission_count
              (cmod (s.windowfirst + (i : Int)) WINDOWSIZE)
            = getI s.retransmission_count
                (cmod (s.windowfirst + (i : Int)) WINDOWSIZE) ∧
          getPkt (A_timerinterrupt s now).1.buffer
              (cmod (s.windowfirst + (i : Int)) WINDOWSIZE)
            = getPkt s.buffer (cmod (s.windowfirst + (i : Int)) WINDOWSIZE))) := by
  simp only [A_timerinterrupt]
  exact C5core now (timeoutBackoff s) hbuf hrc hwf0 hwc

theorem C5_timeout_retransmission_witness :
    (sC5.buffer.length = 6 ∧ sC5.retransmission_count.length = 6 ∧
        0 ≤ sC5.windowfirst ∧ sC5.windowcount ≤ 6) ∧
      ((A_timerinterrupt sC5 100).2.1
          = (List.range sC5.windowcount.toNat).filterMap (fun (i : Nat) =>
              if getI sC5.retransmission_count
                  (cmod (sC5.windowfirst + (i : Int)) WINDOWSIZE)
                  < MAX_RETRANSMISSIONS then
                some { getPkt sC5.buffer
                        (cmod (sC5.windowfirst + (i : Int)) WINDOWSIZE)
                        with timestamp := 100 }
              else none) ∧
        (A_timerinterrupt sC5 100).2.2
          = (List.range sC5.windowcount.toNat).filterMap (fun (i : Nat) =>
              if getI sC5.retransmission_count
                  (cmod (sC5.windowfirst + (i : Int)) WINDOWSIZE)
                  < MAX_RETRANSMISSIONS then none
              else some (getPkt sC5.buffer
                  (cmod (sC5.windowfirst + (i : Int)) WINDOWSIZE)).seqnum) ∧
        (∀ i : Nat, i < sC5.windowcount.toNat →
          (getI sC5.retransmission_count
              (cmod (sC5.windowfirst + (i : Int)) WINDOWSIZE)
              < MAX_RETRANSMISSIONS →
            getI (A_timerinterrupt sC5 100).1.retransmission_count
                (cmod (sC5.windowfirst + (i : Int)) WINDOWSIZE)
              = getI sC5.retransmission_count
                  (cmod (sC5.windowfirst + (i : Int)) WINDOWSIZE) + 1 ∧
            getPkt (A_timerinterrupt sC5 100).1.buffer
                (cmod (sC5.windowfirst + (i : Int)) WINDOWSIZE)
              = { getPkt sC5.buffer (cmod (sC5.windowfirst + (i : Int)) WINDOWSIZE)
                  with timestamp := 100 }) ∧
          (¬ getI sC5.retransmission_count
              (cmod (sC5.windowfirst + (i : Int)) WINDOWSIZE)
              < MAX_RETRANSMISSIONS →
            getI (A_timerinterrupt sC5 100).1.retransmission_count
                (cmod (sC5.windowfirst + (i : Int)) WINDOWSIZE)
              = getI sC5.retransmission_count
                  (cmod (sC5.windowfirst + (i : Int)) WINDOWSIZE) ∧
            getPkt (A_timerinterrupt sC5 100).1.buffer
                (cmod (sC5.windowfirst + (i : Int)) WINDOWSIZE)
              = getPkt sC5.buffer
                  (cmod (sC5.windowfirst + (i : Int)) WINDOWSIZE)))) :=
  ⟨⟨by decide, by decide, by decide, by decide⟩,
   C5_timeout_retransmission sC5 100 (by decide) (by decide) (by decide)
     (by decide)⟩
